import Mathlib

/-!
Verification development for the warthunder_haptics_gui repository.

The Rust sources are shallowly embedded as executable Lean definitions:
  - configuration_manager.rs : settings data model, TOML (de)serialization layer
  - game_event_processor.rs  : process_war_thunder_data
  - message_passing.rs       : command / update enums
  - buttplug_connector.rs    : device session loop (command handling, event stream)
  - war_thunder_connector.rs : telemetry polling loop
  - application.rs           : coordinator update handling

Rust f32/f64 values are modelled as rationals (the comparisons the claims
exercise are far from rounding boundaries); machine integers u64/usize as Nat.
-/

namespace WTH

/-- Helper: does the character list start with the given pattern list
(mirrors the inner loop of Rust str::contains). -/
def listStartsWith : List Char → List Char → Bool
  | _, [] => true
  | [], _ :: _ => false
  | c :: cs, p :: ps => c == p && listStartsWith cs ps

/-- Helper: substring containment on character lists. -/
def listContainsSub : List Char → List Char → Bool
  | [], pat => pat.isEmpty
  | c :: cs, pat => listStartsWith (c :: cs) pat || listContainsSub cs pat

/-- Embedding of Rust str::contains (substring containment). -/
def strContains (hay pat : String) : Bool :=
  listContainsSub hay.toList pat.toList

/-! ## configuration_manager.rs : data model -/

/-- DeviceActionType from configuration_manager.rs. -/
inductive DeviceActionType where
  | Vibrate
  | Stop
  deriving DecidableEq, Repr

/-- DeviceAction from configuration_manager.rs; intensity is an f64 in [0,1]
modelled as a rational, duration_milliseconds a u64 modelled as Nat. -/
structure DeviceAction where
  action_type : DeviceActionType
  intensity : ℚ
  duration_milliseconds : Nat
  deriving DecidableEq, Repr

/-- EventActionSetting from configuration_manager.rs. -/
structure EventActionSetting where
  name : String
  enabled : Bool
  device_action : DeviceAction
  deriving DecidableEq, Repr

/-- ApplicationSettings from configuration_manager.rs. -/
structure ApplicationSettings where
  application_name : String
  polling_interval_milliseconds : Nat
  buttplug_server_address : String
  event_actions : List EventActionSetting
  deriving DecidableEq, Repr

/-- The Default impl of ApplicationSettings from configuration_manager.rs. -/
def defaultApplicationSettings : ApplicationSettings :=
  { application_name := "WarThunder Haptics GUI (Default)"
    polling_interval_milliseconds := 250
    buttplug_server_address := "ws://127.0.0.1:12345"
    event_actions :=
      [{ name := "Пример: Легкая вибрация при старте"
         enabled := true
         device_action :=
           { action_type := DeviceActionType.Vibrate
             intensity := 3/10
             duration_milliseconds := 1000 } }] }

/-! ## configuration_manager.rs : TOML serialization layer

The toml/serde layer is an external crate; its behaviour on the Settings
schema is determined by the derive attributes written in
configuration_manager.rs (serde defaults for intensity, duration and
event_actions). It is modelled here as an executable encoder into a
structured TOML-like document and a decoder that performs real field lookup
with exactly those defaults. -/

/-- A structured TOML-like value: strings, integers, floats, booleans,
sub-tables and arrays of tables. -/
inductive TomlValue where
  | strVal (s : String)
  | natVal (n : Nat)
  | ratVal (q : ℚ)
  | boolVal (b : Bool)
  | tableVal (fields : List (String × TomlValue))
  | tableArrayVal (rows : List (List (String × TomlValue)))

/-- Look up a key in a TOML table. -/
def lookupField : List (String × TomlValue) → String → Option TomlValue
  | [], _ => none
  | (k, v) :: rest, key => if k == key then some v else lookupField rest key

/-- Serialization of the DeviceActionType enum (serde unit-variant string). -/
def actionTypeToToml : DeviceActionType → TomlValue
  | .Vibrate => .strVal "Vibrate"
  | .Stop => .strVal "Stop"

/-- Deserialization of DeviceActionType. -/
def decodeActionType : TomlValue → Option DeviceActionType
  | .strVal "Vibrate" => some DeviceActionType.Vibrate
  | .strVal "Stop" => some DeviceActionType.Stop
  | _ => none

/-- Modelled from the spec: the serde-derived Serialize impl of DeviceAction
(the derive plus field attributes of configuration_manager.rs); the crate code
itself is outside src/. -/
def encodeDeviceAction (a : DeviceAction) : List (String × TomlValue) :=
  [("action_type", actionTypeToToml a.action_type),
   ("intensity", TomlValue.ratVal a.intensity),
   ("duration_milliseconds", TomlValue.natVal a.duration_milliseconds)]

/-- Modelled from the spec: the serde-derived Deserialize impl of DeviceAction;
intensity defaults to 0.5 and duration_milliseconds to 500 when absent, per the
serde default attributes in configuration_manager.rs. -/
def decodeDeviceAction (doc : List (String × TomlValue)) : Option DeviceAction :=
  match lookupField doc "action_type" with
  | some tv =>
    match decodeActionType tv with
    | some aty =>
      match (match lookupField doc "intensity" with
             | some (TomlValue.ratVal q) => some q
             | some _ => none
             | none => some (1/2 : ℚ)) with
      | some inten =>
        match (match lookupField doc "duration_milliseconds" with
               | some (TomlValue.natVal n) => some n
               | some _ => none
               | none => some 500) with
        | some dur => some { action_type := aty, intensity := inten, duration_milliseconds := dur }
        | none => none
      | none => none
    | none => none
  | none => none

/-- Modelled from the spec: the serde-derived Serialize impl of
EventActionSetting. -/
def encodeEventAction (e : EventActionSetting) : List (String × TomlValue) :=
  [("name", TomlValue.strVal e.name),
   ("enabled", TomlValue.boolVal e.enabled),
   ("device_action", TomlValue.tableVal (encodeDeviceAction e.device_action))]

/-- Modelled from the spec: the serde-derived Deserialize impl of
EventActionSetting (all three fields required). -/
def decodeEventAction (doc : List (String × TomlValue)) : Option EventActionSetting :=
  match lookupField doc "name" with
  | some (TomlValue.strVal nm) =>
    match lookupField doc "enabled" with
    | some (TomlValue.boolVal en) =>
      match lookupField doc "device_action" with
      | some (TomlValue.tableVal sub) =>
        match decodeDeviceAction sub with
        | some act => some { name := nm, enabled := en, device_action := act }
        | none => none
      | _ => none
    | _ => none
  | _ => none

/-- Decode an array of event-action tables, failing if any row fails. -/
def decodeActionList : List (List (String × TomlValue)) → Option (List EventActionSetting)
  | [] => some []
  | row :: rest =>
    match decodeEventAction row with
    | some a =>
      match decodeActionList rest with
      | some rs => some (a :: rs)
      | none => none
    | none => none

/-- Modelled from the spec: the serde-derived Serialize impl of
ApplicationSettings. -/
def encodeApplicationSettings (s : ApplicationSettings) : List (String × TomlValue) :=
  [("application_name", TomlValue.strVal s.application_name),
   ("polling_interval_milliseconds", TomlValue.natVal s.polling_interval_milliseconds),
   ("buttplug_server_address", TomlValue.strVal s.buttplug_server_address),
   ("event_actions", TomlValue.tableArrayVal (s.event_actions.map encodeEventAction))]

/-- Modelled from the spec: the serde-derived Deserialize impl of
ApplicationSettings; a missing event_actions key defaults to the empty list per
the serde default attribute in configuration_manager.rs. -/
def decodeApplicationSettings (doc : List (String × TomlValue)) : Option ApplicationSettings :=
  match lookupField doc "application_name" with
  | some (TomlValue.strVal an) =>
    match lookupField doc "polling_interval_milliseconds" with
    | some (TomlValue.natVal pi) =>
      match lookupField doc "buttplug_server_address" with
      | some (TomlValue.strVal ba) =>
        match lookupField doc "event_actions" with
        | some (TomlValue.tableArrayVal rows) =>
          match decodeActionList rows with
          | some acts => some { application_name := an, polling_interval_milliseconds := pi,
                                buttplug_server_address := ba, event_actions := acts }
          | none => none
        | some _ => none
        | none => some { application_name := an, polling_interval_milliseconds := pi,
                         buttplug_server_address := ba, event_actions := [] }
      | _ => none
    | _ => none
  | _ => none

/-- The configuration file contents (parsed form); none means the file is
absent. -/
def ConfigStore : Type := Option (List (String × TomlValue))

/-- save_configuration from configuration_manager.rs: serializes the settings
and writes them to the config file (the fs layer is modelled as replacing the
store contents). -/
def save_configuration (settings : ApplicationSettings) (_store : ConfigStore) : ConfigStore :=
  some (encodeApplicationSettings settings)

/-- load_configuration from configuration_manager.rs: if the file is absent,
creates (and would persist) the default settings and returns them; otherwise
parses the file contents, with a parse failure surfaced as an error string. -/
def load_configuration (store : ConfigStore) : Except String ApplicationSettings :=
  match store with
  | none => Except.ok defaultApplicationSettings
  | some doc =>
    match decodeApplicationSettings doc with
    | some s => Except.ok s
    | none => Except.error "Ошибка парсинга TOML из файла конфигурации"

/-! ## war_thunder_connector.rs : telemetry data model -/

/-- WarThunderIndicators from war_thunder_connector.rs; every field optional,
f32 values modelled as rationals. -/
structure WarThunderIndicators where
  vehicle_type : Option String := none
  speed : Option ℚ := none
  altitude_10k : Option ℚ := none
  rpm_throttle : Option ℚ := none
  health_percentage : Option ℚ := none
  deriving DecidableEq, Repr

/-! ## game_event_processor.rs -/

/-- GameStateSnapshot from game_event_processor.rs. -/
structure GameStateSnapshot where
  last_health_percentage : Option ℚ := none
  deriving DecidableEq, Repr

/-- The per-rule body of the loop in process_war_thunder_data: a disabled rule
contributes nothing; a rule whose name contains "урона" or "damage" contributes
its device_action when health decreased by more than 0.01; the "Выстрел" branch
is empty in the source; any other name contributes nothing. -/
def ruleActions (event_action_config : EventActionSetting)
    (current_indicators : WarThunderIndicators)
    (previous_state : GameStateSnapshot) : List DeviceAction :=
  if !event_action_config.enabled then []
  else if strContains event_action_config.name "урона" ||
          strContains event_action_config.name "damage" then
    match current_indicators.health_percentage, previous_state.last_health_percentage with
    | some current_health, some last_health =>
      if current_health < last_health ∧ last_health - current_health > 1/100 then
        [event_action_config.device_action]
      else []
    | _, _ => []
  else if strContains event_action_config.name "Выстрел" then []
  else []

/-- The for-loop of process_war_thunder_data, accumulating actions in rule
order. -/
def collectActions : List EventActionSetting → WarThunderIndicators → GameStateSnapshot →
    List DeviceAction
  | [], _, _ => []
  | c :: rest, cur, prev => ruleActions c cur prev ++ collectActions rest cur prev

/-- process_war_thunder_data from game_event_processor.rs: returns the actions
to perform and the updated snapshot (last_health_percentage is unconditionally
replaced by the current health after the loop). -/
def process_war_thunder_data (current_indicators : WarThunderIndicators)
    (settings : ApplicationSettings)
    (previous_state : GameStateSnapshot) : List DeviceAction × GameStateSnapshot :=
  (collectActions settings.event_actions current_indicators previous_state,
   { last_health_percentage := current_indicators.health_percentage })

/-! ## message_passing.rs and the backend device model -/

/-- ActuatorType from the buttplug message model (only Vibrate is inspected by
the source; every other actuator kind is collapsed into one constructor). -/
inductive ActuatorType where
  | Vibrate
  | OtherActuator
  deriving DecidableEq, Repr

/-- One scalar-command capability channel of a device (feature index plus
actuator type). -/
structure ScalarFeature where
  index : Nat
  actuator_type : ActuatorType
  deriving DecidableEq, Repr

/-- A backend-owned device handle: stable backend index, address, name, and the
optional scalar-command capability list (message_attributes().scalar_cmd()). -/
structure BackendDevice where
  index : Nat
  address : String
  name : String
  scalar_features : Option (List ScalarFeature) := none
  deriving DecidableEq, Repr

/-- CommandToAsyncTasks from message_passing.rs. -/
inductive CommandToAsyncTasks where
  | StartProcessing
  | StopProcessing
  | UpdateApplicationSettings (settings : ApplicationSettings)
  | VibrateDevice (device_index : Nat) (speed : ℚ)
  | StopDevice (device_index : Nat)
  | ScanForButtplugDevices
  | DisconnectButtplug
  deriving DecidableEq, Repr

/-- UpdateFromAsyncTasks from message_passing.rs. -/
inductive UpdateFromAsyncTasks where
  | LogMessage (msg : String)
  | WarThunderIndicatorsUpdate (ind : WarThunderIndicators)
  | WarThunderConnectionStatus (connected : Bool)
  | ButtplugConnected
  | ButtplugDisconnected
  | ButtplugDeviceFound (d : BackendDevice)
  | ButtplugDeviceLost (d : BackendDevice)
  | ButtplugError (msg : String)
  | ApplicationSettingsLoaded (settings : ApplicationSettings)
  deriving DecidableEq, Repr

/-! ## buttplug_connector.rs : device session loop -/

/-- The session loop state: optional_client is none when no client exists,
some b when a client exists with connected() = b; connected_devices is the
session device registry. -/
structure SessionState where
  optional_client : Option Bool := none
  connected_devices : List BackendDevice := []
  deriving DecidableEq, Repr

/-- The calls the session loop makes against the external haptic backend. -/
inductive BackendCall where
  | ConnectAttempt
  | StartScanning
  | VibrateCmd (deviceIndex : Nat) (subcommands : List (Nat × ℚ))
  | StopCall (deviceIndex : Nat)
  | DisconnectCall
  deriving DecidableEq, Repr

/-- Outcome of the in-process connection attempt (external backend reply). -/
inductive ConnectOutcome where
  | success
  | failure (errMsg : String)
  deriving DecidableEq, Repr

/-- Outcome of the start_scanning call (external backend reply). -/
inductive ScanOutcome where
  | started
  | scanFailed (errMsg : String)
  deriving DecidableEq, Repr

/-- Result of handling one command in the session loop. -/
structure CommandResult where
  state : SessionState
  updates : List UpdateFromAsyncTasks
  calls : List BackendCall
  deriving DecidableEq, Repr

/-- The scan block of the ScanForButtplugDevices arm (lines 48-62 of
buttplug_connector.rs), entered after the client-existence check with the
updates and calls accumulated so far. -/
def scanBlock (s : SessionState) (pre : List UpdateFromAsyncTasks)
    (calls : List BackendCall) (scan : ScanOutcome) : CommandResult :=
  match s.optional_client with
  | some true =>
    match scan with
    | .started =>
      { state := s
        updates := pre ++ [UpdateFromAsyncTasks.LogMessage "Сканирование устройств Buttplug запущено."]
        calls := calls ++ [BackendCall.StartScanning] }
    | .scanFailed e =>
      { state := s
        updates := pre ++ [UpdateFromAsyncTasks.ButtplugError ("Ошибка сканирования: " ++ e)]
        calls := calls ++ [BackendCall.StartScanning] }
  | some false =>
    { state := { s with optional_client := none }
      updates := pre ++ [UpdateFromAsyncTasks.ButtplugDisconnected]
      calls := calls }
  | none => { state := s, updates := pre, calls := calls }

/-- Handling of one command by the session loop (the command arm of the select
in run_buttplug_service_loop). The external backend replies are supplied as the
conn / scan oracle arguments. -/
def handleCommand (s : SessionState) (c : CommandToAsyncTasks)
    (conn : ConnectOutcome) (scan : ScanOutcome) : CommandResult :=
  match c with
  | .ScanForButtplugDevices =>
    match s.optional_client with
    | none =>
      match conn with
      | .success =>
        scanBlock { s with optional_client := some true }
          [UpdateFromAsyncTasks.ButtplugConnected,
           UpdateFromAsyncTasks.LogMessage "Успешно подключено к Buttplug (InProcess)."]
          [BackendCall.ConnectAttempt] scan
      | .failure e =>
        { state := { s with optional_client := none }
          updates := [UpdateFromAsyncTasks.ButtplugError ("Ошибка подключения InProcess: " ++ e),
                      UpdateFromAsyncTasks.ButtplugDisconnected]
          calls := [BackendCall.ConnectAttempt] }
    | some _ => scanBlock s [] [] scan
  | .VibrateDevice device_index speed =>
    match s.optional_client with
    | some true =>
      match s.connected_devices[device_index]? with
      | some device =>
        let subcommands :=
          match device.scalar_features with
          | some feats =>
            ((feats.filter fun f => f.actuator_type == ActuatorType.Vibrate).map
              fun f => (f.index, speed))
          | none => []
        if subcommands.isEmpty then { state := s, updates := [], calls := [] }
        else { state := s, updates := [], calls := [BackendCall.VibrateCmd device.index subcommands] }
      | none => { state := s, updates := [], calls := [] }
    | _ => { state := s, updates := [], calls := [] }
  | .StopDevice device_index =>
    match s.optional_client with
    | some true =>
      match s.connected_devices[device_index]? with
      | some device => { state := s, updates := [], calls := [BackendCall.StopCall device.index] }
      | none => { state := s, updates := [], calls := [] }
    | _ => { state := s, updates := [], calls := [] }
  | .DisconnectButtplug =>
    { state := { optional_client := none, connected_devices := [] }
      updates := [UpdateFromAsyncTasks.ButtplugDisconnected,
                  UpdateFromAsyncTasks.LogMessage "Отключено от Buttplug сервера по команде."]
      calls := match s.optional_client with
               | some true => [BackendCall.DisconnectCall]
               | _ => [] }
  | _ => { state := s, updates := [], calls := [] }

/-- ButtplugClientEvent variants the session loop inspects. -/
inductive ButtplugClientEvent where
  | DeviceAdded (d : BackendDevice)
  | DeviceRemoved (d : BackendDevice)
  | ServerDisconnect
  | PingTimeout
  deriving DecidableEq, Repr

/-- Handling of one backend event by the session loop (the event match of
run_buttplug_service_loop, lines 175-225). -/
def handleEvent (s : SessionState) (e : ButtplugClientEvent) :
    SessionState × List UpdateFromAsyncTasks :=
  match e with
  | .DeviceAdded d =>
    if s.connected_devices.any fun existing => existing.index == d.index then
      (s, [])
    else
      ({ s with connected_devices := s.connected_devices ++ [d] },
       [UpdateFromAsyncTasks.ButtplugDeviceFound d])
  | .DeviceRemoved d =>
    let kept := s.connected_devices.filter fun x => x.index != d.index
    match (s.connected_devices.filter fun x => x.index == d.index).getLast? with
    | some lost => ({ s with connected_devices := kept },
                    [UpdateFromAsyncTasks.ButtplugDeviceLost lost])
    | none => ({ s with connected_devices := kept }, [])
  | .ServerDisconnect =>
    ({ optional_client := none, connected_devices := [] },
     [UpdateFromAsyncTasks.ButtplugDisconnected,
      UpdateFromAsyncTasks.LogMessage "Buttplug сервер отключился."])
  | .PingTimeout =>
    ({ optional_client := none, connected_devices := [] },
     [UpdateFromAsyncTasks.ButtplugDisconnected,
      UpdateFromAsyncTasks.LogMessage "Buttplug PING таймаут. Соединение потеряно."])

/-- Process a sequence of backend events, accumulating the relayed updates. -/
def runEvents (s : SessionState) : List ButtplugClientEvent →
    SessionState × List UpdateFromAsyncTasks
  | [] => (s, [])
  | e :: rest =>
    let r1 := handleEvent s e
    let r2 := runEvents r1.1 rest
    (r2.1, r1.2 ++ r2.2)

/-- One item delivered by the backend event stream: an event or a stream
error (flagged when it is a connector error). -/
inductive StreamItem where
  | ev (e : ButtplugClientEvent)
  | streamErr (isConnectorError : Bool) (msg : String)
  deriving DecidableEq, Repr

/-- The event-stream arm of the select in run_buttplug_service_loop: the stream
is polled only through a client that exists and is connected; with no client
the arm receives none and does nothing; with a disconnected client it clears
the session. -/
def streamPoll (s : SessionState) (item : Option StreamItem) :
    SessionState × List UpdateFromAsyncTasks :=
  match s.optional_client with
  | some true =>
    match item with
    | some (.ev e) => handleEvent s e
    | some (.streamErr isConnectorError m) =>
      if isConnectorError then
        ({ optional_client := none, connected_devices := [] },
         [UpdateFromAsyncTasks.ButtplugError ("Ошибка потока событий: " ++ m),
          UpdateFromAsyncTasks.ButtplugDisconnected])
      else
        (s, [UpdateFromAsyncTasks.ButtplugError ("Ошибка потока событий: " ++ m)])
    | none => (s, [])
  | some false =>
    ({ optional_client := none, connected_devices := [] },
     [UpdateFromAsyncTasks.ButtplugDisconnected])
  | none => (s, [])

/-! ## war_thunder_connector.rs : polling loop -/

/-- The mutable locals of run_war_thunder_polling_loop. -/
structure WtState where
  polling_interval_milliseconds : Nat
  last_known_health : Option ℚ := none
  deriving DecidableEq, Repr

/-- Result of try_recv on the command channel at the top of each cycle. -/
inductive TryRecvResult where
  | cmd (c : CommandToAsyncTasks)
  | emptyQueue
  | disconnectedChannel
  deriving DecidableEq, Repr

/-- Outcome of the HTTP telemetry fetch of one cycle. -/
inductive FetchOutcome where
  | ok (indicators : WarThunderIndicators)
  | httpErr
  | parseErr (msg : String)
  | connErr
  deriving DecidableEq, Repr

/-- Result of one iteration of the polling loop: the next state (none when the
loop breaks), the updates sent, and the sleep performed at the end of the
cycle (none when the loop breaks before sleeping). -/
structure WtIterResult where
  next : Option WtState
  updates : List UpdateFromAsyncTasks
  sleep_ms : Option Nat
  deriving DecidableEq, Repr

/-- The successful-parse branch of the polling loop (lines 67-88): damage
detection against the previous health, snapshot replacement, emission of the
full indicators and a connected status. -/
def wtProcessOk (s : WtState) (indicators : WarThunderIndicators) :
    WtState × List UpdateFromAsyncTasks :=
  match indicators.health_percentage with
  | some current_health =>
    let dmgLog :=
      match s.last_known_health with
      | some last_health =>
        if |current_health - last_health| > 1/100 ∧ current_health < last_health then
          [UpdateFromAsyncTasks.LogMessage
            ("Обнаружен урон! Здоровье: " ++ toString current_health ++ "%")]
        else []
      | none => []
    ({ s with last_known_health := some current_health },
     dmgLog ++ [UpdateFromAsyncTasks.WarThunderIndicatorsUpdate indicators,
                UpdateFromAsyncTasks.WarThunderConnectionStatus true])
  | none =>
    (s, [UpdateFromAsyncTasks.WarThunderIndicatorsUpdate indicators,
         UpdateFromAsyncTasks.WarThunderConnectionStatus true])

/-- The fetch-and-sleep tail of one polling-loop iteration (lines 63-113). -/
def wtFetchPhase (s : WtState) (f : FetchOutcome) : WtIterResult :=
  match f with
  | .ok indicators =>
    let r := wtProcessOk s indicators
    { next := some r.1, updates := r.2, sleep_ms := some r.1.polling_interval_milliseconds }
  | .parseErr m =>
    { next := some s
      updates := [UpdateFromAsyncTasks.LogMessage ("Ошибка парсинга JSON от WT: " ++ m),
                  UpdateFromAsyncTasks.WarThunderConnectionStatus false]
      sleep_ms := some s.polling_interval_milliseconds }
  | .httpErr =>
    { next := some s
      updates := [UpdateFromAsyncTasks.WarThunderConnectionStatus false]
      sleep_ms := some s.polling_interval_milliseconds }
  | .connErr =>
    { next := some s
      updates := [UpdateFromAsyncTasks.WarThunderConnectionStatus false]
      sleep_ms := some s.polling_interval_milliseconds }

/-- One full iteration of run_war_thunder_polling_loop: a non-blocking command
poll (UpdateApplicationSettings replaces the interval, StopProcessing and a
closed channel break the loop, other commands are ignored), then the fetch,
then the sleep using the current interval variable. -/
def wtIteration (s : WtState) (r : TryRecvResult) (f : FetchOutcome) : WtIterResult :=
  match r with
  | .cmd (.UpdateApplicationSettings settings) =>
    let s1 := { s with polling_interval_milliseconds := settings.polling_interval_milliseconds }
    let res := wtFetchPhase s1 f
    let intervalMsg := UpdateFromAsyncTasks.LogMessage
      ("Интервал опроса War Thunder изменен на " ++
        toString settings.polling_interval_milliseconds ++ " мс")
    { res with updates := intervalMsg :: res.updates }
  | .cmd .StopProcessing =>
    { next := none
      updates := [UpdateFromAsyncTasks.LogMessage "Остановлен опрос War Thunder.",
                  UpdateFromAsyncTasks.WarThunderConnectionStatus false]
      sleep_ms := none }
  | .disconnectedChannel => { next := none, updates := [], sleep_ms := none }
  | .emptyQueue => wtFetchPhase s f
  | .cmd _ => wtFetchPhase s f

/-! ## application.rs : coordinator -/

/-- The coordinator state (the fields of WarThunderHapticsApplication that
handle_incoming_updates reads or mutates). -/
structure AppState where
  settings : ApplicationSettings
  current_wt_indicators : Option WarThunderIndicators := none
  game_state_snapshot : GameStateSnapshot := {}
  buttplug_devices : List BackendDevice := []
  selected_device_index : Option Nat := none
  is_buttplug_connected : Bool := false
  is_war_thunder_connected : Bool := false
  log_messages : List String := []
  is_processing_enabled : Bool := false
  deriving DecidableEq, Repr

/-- add_log_message from application.rs: insert at the front, then pop the last
entry when the log exceeds 100 lines. -/
def add_log_message (logs : List String) (message : String) : List String :=
  let l2 := message :: logs
  if 100 < l2.length then l2.dropLast else l2

/-- The device-name lookup of the vibration log line
(buttplug_devices.get(idx).map_or("N/A", name)). -/
def deviceNameAt (devices : List BackendDevice) (idx : Nat) : String :=
  match devices[idx]? with
  | some d => d.name
  | none => "N/A"

/-- The action-dispatch loop inside the WarThunderIndicatorsUpdate arm of
handle_incoming_updates (lines 101-132): each action is routed to the selected
device, or device 0 when none is selected and devices exist, or dropped when no
device is known; Vibrate also logs. Only log_messages and the outgoing command
queue are touched. -/
def dispatchActions (devices : List BackendDevice) (sel : Option Nat) :
    List DeviceAction → List String → List String × List CommandToAsyncTasks
  | [], logs => (logs, [])
  | device_action :: rest, logs =>
    match (match sel with
           | some i => some i
           | none => if devices.isEmpty then none else some 0) with
    | some device_idx =>
      match device_action.action_type with
      | .Vibrate =>
        let logs2 := add_log_message logs
          ("Игровое событие: вибрация устройства " ++ deviceNameAt devices device_idx ++
           " с интенсивностью " ++ toString device_action.intensity ++ " на " ++
           toString device_action.duration_milliseconds ++ " мс")
        let r := dispatchActions devices sel rest logs2
        (r.1, CommandToAsyncTasks.VibrateDevice device_idx device_action.intensity :: r.2)
      | .Stop =>
        let r := dispatchActions devices sel rest logs
        (r.1, CommandToAsyncTasks.StopDevice device_idx :: r.2)
    | none => dispatchActions devices sel rest logs

/-- Handling of one update by the coordinator (the match of
handle_incoming_updates in application.rs); returns the new state and the
commands pushed onto the command queue. -/
def handleUpdate (s : AppState) (u : UpdateFromAsyncTasks) :
    AppState × List CommandToAsyncTasks :=
  match u with
  | .LogMessage msg =>
    ({ s with log_messages := add_log_message s.log_messages msg }, [])
  | .WarThunderIndicatorsUpdate indicators =>
    let s1 := { s with current_wt_indicators := some indicators }
    if s1.is_processing_enabled then
      let pr := process_war_thunder_data indicators s1.settings s1.game_state_snapshot
      let dr := dispatchActions s1.buttplug_devices s1.selected_device_index pr.1 s1.log_messages
      ({ s1 with game_state_snapshot := pr.2, log_messages := dr.1 }, dr.2)
    else (s1, [])
  | .WarThunderConnectionStatus is_connected =>
    if is_connected then ({ s with is_war_thunder_connected := true }, [])
    else ({ s with is_war_thunder_connected := false, current_wt_indicators := none }, [])
  | .ButtplugConnected =>
    ({ s with
        is_buttplug_connected := true,
        log_messages := add_log_message s.log_messages "Успешно подключено к Buttplug серверу." }, [])
  | .ButtplugDisconnected =>
    ({ s with
        is_buttplug_connected := false,
        buttplug_devices := [],
        selected_device_index := none,
        log_messages := add_log_message s.log_messages "Отключено от Buttplug сервера." }, [])
  | .ButtplugDeviceFound d =>
    if s.buttplug_devices.any fun x => x.address == d.address then (s, [])
    else
      let devices := s.buttplug_devices ++ [d]
      let sel := if s.selected_device_index.isNone && !devices.isEmpty then some 0
                 else s.selected_device_index
      let logs := add_log_message s.log_messages ("Найдено устройство Buttplug: " ++ d.name)
      ({ s with
          buttplug_devices := devices,
          selected_device_index := sel,
          log_messages := logs }, [])
  | .ButtplugDeviceLost d =>
    let devices := s.buttplug_devices.filter fun x => x.address != d.address
    let sel := match s.selected_device_index with
               | some idx =>
                 if devices.length ≤ idx then (if devices.isEmpty then none else some 0)
                 else some idx
               | none => none
    let logs := add_log_message s.log_messages ("Устройство Buttplug потеряно: " ++ d.name)
    ({ s with
        buttplug_devices := devices,
        selected_device_index := sel,
        log_messages := logs }, [])
  | .ButtplugError err_msg =>
    ({ s with log_messages := add_log_message s.log_messages ("Ошибка Buttplug: " ++ err_msg) }, [])
  | .ApplicationSettingsLoaded loaded_settings =>
    ({ s with
        settings := loaded_settings,
        log_messages := add_log_message s.log_messages "Настройки успешно загружены." }, [])

/-- The drain loop of handle_incoming_updates: apply every queued update in
arrival order, accumulating the emitted commands. -/
def handle_incoming_updates (s : AppState) : List UpdateFromAsyncTasks →
    AppState × List CommandToAsyncTasks
  | [] => (s, [])
  | u :: rest =>
    let r1 := handleUpdate s u
    let r2 := handle_incoming_updates r1.1 rest
    (r2.1, r1.2 ++ r2.2)

/-- The coordinator selection invariant: a selected device index is always a
valid position in the locally mirrored device list. -/
def SelValid (s : AppState) : Prop :=
  ∀ i, s.selected_device_index = some i → i < s.buttplug_devices.length

/-! ## Channel send call sites and their primitives

Every send onto the two tokio mpsc queues in the three components, identified
by component and source line, together with the primitive used: try_send
(non-blocking, returns an error that every call site discards when the queue is
full) or an awaited send (suspends the caller until queue capacity is
available). -/

/-- The component performing a channel send. -/
inductive ComponentId where
  | Coordinator
  | WtLoop
  | BpLoop
  deriving DecidableEq, Repr

/-- The send primitive used at a call site. -/
inductive SendPrimitive where
  | TrySendCall
  | AwaitSendCall
  deriving DecidableEq, Repr

/-- One channel-send call site in the sources. -/
structure SendSite where
  component : ComponentId
  sourceLine : Nat
  primitive : SendPrimitive
  deriving DecidableEq, Repr

/-- All channel-send call sites: application.rs (Coordinator),
war_thunder_connector.rs (WtLoop) and buttplug_connector.rs (BpLoop). -/
def sendSites : List SendSite :=
  [⟨.Coordinator, 57, .TrySendCall⟩, ⟨.Coordinator, 118, .TrySendCall⟩,
   ⟨.Coordinator, 127, .TrySendCall⟩, ⟨.Coordinator, 199, .TrySendCall⟩,
   ⟨.Coordinator, 215, .TrySendCall⟩, ⟨.Coordinator, 219, .TrySendCall⟩,
   ⟨.Coordinator, 225, .TrySendCall⟩, ⟨.Coordinator, 229, .TrySendCall⟩,
   ⟨.Coordinator, 259, .TrySendCall⟩, ⟨.Coordinator, 262, .TrySendCall⟩,
   ⟨.Coordinator, 315, .TrySendCall⟩, ⟨.Coordinator, 346, .TrySendCall⟩,
   ⟨.Coordinator, 377, .TrySendCall⟩, ⟨.Coordinator, 378, .TrySendCall⟩,
   ⟨.WtLoop, 47, .AwaitSendCall⟩, ⟨.WtLoop, 50, .AwaitSendCall⟩,
   ⟨.WtLoop, 51, .AwaitSendCall⟩, ⟨.WtLoop, 72, .AwaitSendCall⟩,
   ⟨.WtLoop, 81, .AwaitSendCall⟩, ⟨.WtLoop, 85, .AwaitSendCall⟩,
   ⟨.WtLoop, 91, .AwaitSendCall⟩, ⟨.WtLoop, 92, .AwaitSendCall⟩,
   ⟨.WtLoop, 100, .AwaitSendCall⟩, ⟨.WtLoop, 108, .AwaitSendCall⟩,
   ⟨.BpLoop, 35, .AwaitSendCall⟩, ⟨.BpLoop, 36, .AwaitSendCall⟩,
   ⟨.BpLoop, 40, .AwaitSendCall⟩, ⟨.BpLoop, 41, .AwaitSendCall⟩,
   ⟨.BpLoop, 53, .AwaitSendCall⟩, ⟨.BpLoop, 55, .AwaitSendCall⟩,
   ⟨.BpLoop, 60, .AwaitSendCall⟩, ⟨.BpLoop, 157, .AwaitSendCall⟩,
   ⟨.BpLoop, 161, .AwaitSendCall⟩, ⟨.BpLoop, 180, .AwaitSendCall⟩,
   ⟨.BpLoop, 199, .AwaitSendCall⟩, ⟨.BpLoop, 208, .AwaitSendCall⟩,
   ⟨.BpLoop, 212, .AwaitSendCall⟩, ⟨.BpLoop, 218, .AwaitSendCall⟩,
   ⟨.BpLoop, 222, .AwaitSendCall⟩, ⟨.BpLoop, 229, .AwaitSendCall⟩,
   ⟨.BpLoop, 233, .AwaitSendCall⟩, ⟨.BpLoop, 244, .TrySendCall⟩,
   ⟨.BpLoop, 260, .AwaitSendCall⟩]

/-- A bounded mpsc queue (capacity plus currently queued items). -/
structure BoundedQueue (α : Type) where
  capacity : Nat
  items : List α
  deriving DecidableEq, Repr

/-- The immediate completion of a send: try_send completes at once, dropping
the message when the queue is full; an awaited send on a full queue does not
complete immediately (the caller suspends until capacity frees), modelled as
none. -/
def sendCompletion (p : SendPrimitive) (q : BoundedQueue α) (a : α) :
    Option (BoundedQueue α) :=
  match p with
  | .TrySendCall =>
    if q.capacity ≤ q.items.length then some q
    else some { q with items := q.items ++ [a] }
  | .AwaitSendCall =>
    if q.capacity ≤ q.items.length then none
    else some { q with items := q.items ++ [a] }

/-- The back-pressure policy the spec asserts: on a full queue the send
completes without blocking and leaves the queue unchanged (message dropped). -/
def NonBlockingDropWhenFull (p : SendPrimitive) : Prop :=
  ∀ (q : BoundedQueue Nat) (a : Nat), q.capacity ≤ q.items.length →
    sendCompletion p q a = some q

/-- Recognizer for the ButtplugDisconnected update variant. -/
def isBpDisconnectedUpd : UpdateFromAsyncTasks → Bool
  | .ButtplugDisconnected => true
  | _ => false

/-- The session registry de-duplication invariant: backend device indices in
connected_devices are pairwise distinct. -/
def registryNodup (s : SessionState) : Prop :=
  (s.connected_devices.map BackendDevice.index).Nodup

/-! # Theorems -/

theorem decodeActionType_encode (t : DeviceActionType) :
    decodeActionType (actionTypeToToml t) = some t := by
  cases t <;> rfl

theorem decode_encode_deviceAction (a : DeviceAction) :
    decodeDeviceAction (encodeDeviceAction a) = some a := by
  cases a with
  | mk aty inten dur => cases aty <;> rfl

theorem decode_encode_eventAction (e : EventActionSetting) :
    decodeEventAction (encodeEventAction e) = some e := by
  cases e with
  | mk nm en act =>
    cases act with
    | mk aty inten dur => cases aty <;> rfl

theorem decodeActionList_encode (l : List EventActionSetting) :
    decodeActionList (l.map encodeEventAction) = some l := by
  induction l with
  | nil => rfl
  | cons e rest ih => simp [decodeActionList, decode_encode_eventAction, ih]

/-- C8: for every ApplicationSettings value (empty or populated event-action
list alike), save_configuration followed by load_configuration yields the
original settings value back, field for field. -/
theorem C8_save_load_round_trip (s : ApplicationSettings) (store : ConfigStore) :
    load_configuration (save_configuration s store) = Except.ok s := by
  cases s with
  | mk an pin ba evs =>
    simp [load_configuration, save_configuration, encodeApplicationSettings,
          decodeApplicationSettings, lookupField, decodeActionList_encode]

/-- C6: with a single enabled damage-matching Vibrate rule, a health drop from
100 to 95 yields that rule's action exactly once; no health change (95 to 95)
yields nothing; a drop below the 0.01 epsilon (95 to 94.995) yields nothing. -/
theorem C6_health_delta_triggers (r : EventActionSetting) (an ba : String) (pin : Nat)
    (vt : Option String) (sp alt rpm : Option ℚ)
    (hen : r.enabled = true)
    (hname : strContains r.name "урона" = true ∨ strContains r.name "damage" = true)
    (_hact : r.device_action.action_type = DeviceActionType.Vibrate) :
    (process_war_thunder_data ⟨vt, sp, alt, rpm, some 95⟩ ⟨an, pin, ba, [r]⟩
        ⟨some 100⟩).1 = [r.device_action] ∧
    (process_war_thunder_data ⟨vt, sp, alt, rpm, some 95⟩ ⟨an, pin, ba, [r]⟩
        ⟨some 95⟩).1 = [] ∧
    (process_war_thunder_data ⟨vt, sp, alt, rpm, some (94995/1000)⟩ ⟨an, pin, ba, [r]⟩
        ⟨some 95⟩).1 = [] := by
  have hcond : (strContains r.name "урона" || strContains r.name "damage") = true := by
    rcases hname with h | h <;> simp [h]
  refine ⟨?_, ?_, ?_⟩ <;>
    simp [process_war_thunder_data, collectActions, ruleActions, hen, hcond] <;>
    norm_num

/-- Closed witness for C6 at a concrete rule and concrete healths. -/
theorem C6_health_delta_triggers_witness :
    (⟨"при получении урона", true, ⟨DeviceActionType.Vibrate, 1/2, 100⟩⟩
        : EventActionSetting).enabled = true ∧
    strContains "при получении урона" "урона" = true ∧
    (process_war_thunder_data ⟨none, none, none, none, some 95⟩
        ⟨"a", 1, "b", [⟨"при получении урона", true, ⟨DeviceActionType.Vibrate, 1/2, 100⟩⟩]⟩
        ⟨some 100⟩).1 = [⟨DeviceActionType.Vibrate, 1/2, 100⟩] :=
  ⟨rfl, by decide,
   (C6_health_delta_triggers ⟨"при получении урона", true, ⟨DeviceActionType.Vibrate, 1/2, 100⟩⟩
      "a" "b" 1 none none none none rfl (Or.inl (by decide)) rfl).1⟩

theorem collectActions_append (l1 l2 : List EventActionSetting)
    (cur : WarThunderIndicators) (prev : GameStateSnapshot) :
    collectActions (l1 ++ l2) cur prev =
      collectActions l1 cur prev ++ collectActions l2 cur prev := by
  induction l1 with
  | nil => rfl
  | cons c rest ih => simp [collectActions, ih]

theorem ruleActions_nonmatching (r : EventActionSetting) (cur : WarThunderIndicators)
    (prev : GameStateSnapshot)
    (h1 : strContains r.name "урона" = false)
    (h2 : strContains r.name "damage" = false)
    (h3 : strContains r.name "Выстрел" = false) :
    ruleActions r cur prev = [] := by
  simp [ruleActions, h1, h2, h3]

/-- C9: an enabled rule whose name contains none of the substrings "урона",
"damage", "Выстрел" never contributes its action: the processed action list
with the rule present equals the one with the rule removed, for every pair of
current indicators and previous snapshot. -/
theorem C9_nonmatching_name_never_fires (r : EventActionSetting)
    (pre post : List EventActionSetting) (an ba : String) (pin : Nat)
    (cur : WarThunderIndicators) (prev : GameStateSnapshot)
    (_hen : r.enabled = true)
    (h1 : strContains r.name "урона" = false)
    (h2 : strContains r.name "damage" = false)
    (h3 : strContains r.name "Выстрел" = false) :
    (process_war_thunder_data cur ⟨an, pin, ba, pre ++ r :: post⟩ prev).1 =
      (process_war_thunder_data cur ⟨an, pin, ba, pre ++ post⟩ prev).1 := by
  simp [process_war_thunder_data, collectActions_append, collectActions,
        ruleActions_nonmatching r cur prev h1 h2 h3]

/-- Closed witness for C9 at a concrete non-matching enabled rule. -/
theorem C9_nonmatching_name_never_fires_witness :
    strContains "recoil rule" "урона" = false ∧
    (process_war_thunder_data ⟨none, none, none, none, some 10⟩
        ⟨"a", 1, "b", [⟨"recoil rule", true, ⟨DeviceActionType.Vibrate, 1/2, 100⟩⟩]⟩
        ⟨some 100⟩).1 =
      (process_war_thunder_data ⟨none, none, none, none, some 10⟩
        ⟨"a", 1, "b", []⟩ ⟨some 100⟩).1 :=
  ⟨by decide,
   C9_nonmatching_name_never_fires
     ⟨"recoil rule", true, ⟨DeviceActionType.Vibrate, 1/2, 100⟩⟩ [] [] "a" "b" 1
     ⟨none, none, none, none, some 10⟩ ⟨some 100⟩
     rfl (by decide) (by decide) (by decide)⟩

/-- C2: an Actuate (VibrateDevice) command whose device_index is at or beyond
the registry length is a total no-op in every session state: the handler
returns (it cannot panic, being a total function), the state is unchanged, no
update is emitted and no backend call is issued. -/
theorem C2_actuate_out_of_bounds_noop (s : SessionState) (i : Nat) (speed : ℚ)
    (conn : ConnectOutcome) (scan : ScanOutcome)
    (h : s.connected_devices.length ≤ i) :
    handleCommand s (CommandToAsyncTasks.VibrateDevice i speed) conn scan =
      ⟨s, [], []⟩ := by
  have hnone : s.connected_devices[i]? = none := List.getElem?_eq_none h
  rcases s with ⟨cl, devs⟩
  rcases cl with _ | b
  · rfl
  · cases b <;> simp [handleCommand, hnone]

/-- Closed witness for C2: a one-device registry probed at index 5. -/
theorem C2_actuate_out_of_bounds_noop_witness :
    handleCommand ⟨some true, [⟨3, "addr", "dev", some [⟨0, ActuatorType.Vibrate⟩]⟩]⟩
        (CommandToAsyncTasks.VibrateDevice 5 (1/2)) ConnectOutcome.success
        ScanOutcome.started =
      ⟨⟨some true, [⟨3, "addr", "dev", some [⟨0, ActuatorType.Vibrate⟩]⟩]⟩, [], []⟩ :=
  C2_actuate_out_of_bounds_noop
    ⟨some true, [⟨3, "addr", "dev", some [⟨0, ActuatorType.Vibrate⟩]⟩]⟩ 5 (1/2)
    ConnectOutcome.success ScanOutcome.started (by decide)

/-- C4: Disconnect from any session state clears the registry, emits exactly
one ButtplugDisconnected update, issues the backend teardown call exactly when
a connected client existed, and a repeated Disconnect produces the same
resulting state and the same updates with no further backend call. -/
theorem C4_disconnect_idempotent (s : SessionState)
    (conn1 scan1 conn2 scan2 : ConnectOutcome × ScanOutcome) :
    (handleCommand s CommandToAsyncTasks.DisconnectButtplug conn1.1 scan1.2).state.connected_devices = [] ∧
    ((handleCommand s CommandToAsyncTasks.DisconnectButtplug conn1.1 scan1.2).updates.countP
        isBpDisconnectedUpd) = 1 ∧
    ((handleCommand s CommandToAsyncTasks.DisconnectButtplug conn1.1 scan1.2).calls =
      if s.optional_client = some true then [BackendCall.DisconnectCall] else []) ∧
    (handleCommand
        (handleCommand s CommandToAsyncTasks.DisconnectButtplug conn1.1 scan1.2).state
        CommandToAsyncTasks.DisconnectButtplug conn2.1 scan2.2) =
      ⟨(handleCommand s CommandToAsyncTasks.DisconnectButtplug conn1.1 scan1.2).state,
       (handleCommand s CommandToAsyncTasks.DisconnectButtplug conn1.1 scan1.2).updates,
       []⟩ := by
  rcases s with ⟨cl, devs⟩
  rcases cl with _ | b
  · exact ⟨rfl, rfl, by simp [handleCommand], rfl⟩
  · cases b
    · exact ⟨rfl, rfl, by simp [handleCommand], rfl⟩
    · exact ⟨rfl, rfl, by simp [handleCommand], rfl⟩

/-- C5: ScanForDevices with no client attempts one backend connection; on
failure it emits DeviceError then DeviceBackendDisconnected, leaves the client
absent and the registry untouched, and the event-stream arm performs nothing
further in that state (no automatic retry until the next command). -/
theorem C5_scan_connect_failure (s : SessionState) (e : String) (scan : ScanOutcome)
    (h : s.optional_client = none) :
    (handleCommand s CommandToAsyncTasks.ScanForButtplugDevices (ConnectOutcome.failure e) scan).updates =
      [UpdateFromAsyncTasks.ButtplugError ("Ошибка подключения InProcess: " ++ e),
       UpdateFromAsyncTasks.ButtplugDisconnected] ∧
    (handleCommand s CommandToAsyncTasks.ScanForButtplugDevices (ConnectOutcome.failure e) scan).state.optional_client = none ∧
    (handleCommand s CommandToAsyncTasks.ScanForButtplugDevices (ConnectOutcome.failure e) scan).state.connected_devices = s.connected_devices ∧
    (handleCommand s CommandToAsyncTasks.ScanForButtplugDevices (ConnectOutcome.failure e) scan).calls =
      [BackendCall.ConnectAttempt] ∧
    (∀ item, streamPoll
        (handleCommand s CommandToAsyncTasks.ScanForButtplugDevices (ConnectOutcome.failure e) scan).state item =
      ((handleCommand s CommandToAsyncTasks.ScanForButtplugDevices (ConnectOutcome.failure e) scan).state, [])) := by
  rcases s with ⟨cl, devs⟩
  cases h
  refine ⟨rfl, rfl, rfl, rfl, fun item => ?_⟩
  rfl

/-- Closed witness for C5: a clientless session with a nonempty stale registry. -/
theorem C5_scan_connect_failure_witness :
    (handleCommand ⟨none, [⟨1, "a", "d", none⟩]⟩ CommandToAsyncTasks.ScanForButtplugDevices
        (ConnectOutcome.failure "refused") ScanOutcome.started).updates =
      [UpdateFromAsyncTasks.ButtplugError "Ошибка подключения InProcess: refused",
       UpdateFromAsyncTasks.ButtplugDisconnected] ∧
    (handleCommand ⟨none, [⟨1, "a", "d", none⟩]⟩ CommandToAsyncTasks.ScanForButtplugDevices
        (ConnectOutcome.failure "refused") ScanOutcome.started).state.optional_client = none :=
  ⟨(C5_scan_connect_failure ⟨none, [⟨1, "a", "d", none⟩]⟩ "refused" ScanOutcome.started rfl).1,
   (C5_scan_connect_failure ⟨none, [⟨1, "a", "d", none⟩]⟩ "refused" ScanOutcome.started rfl).2.1⟩

theorem handleEvent_nodup (s : SessionState) (e : ButtplugClientEvent)
    (h : registryNodup s) : registryNodup (handleEvent s e).1 := by
  cases e with
  | DeviceAdded d =>
    by_cases hany : (s.connected_devices.any fun ex => ex.index == d.index) = true
    · simpa [handleEvent, hany] using h
    · have hnotmem : d.index ∉ s.connected_devices.map BackendDevice.index := by
        intro hmem
        rcases List.mem_map.mp hmem with ⟨x, hx, hxi⟩
        exact hany (List.any_eq_true.mpr ⟨x, hx, by simp [hxi]⟩)
      unfold registryNodup at h ⊢
      simp only [handleEvent, hany, if_false, Bool.false_eq_true, List.map_append]
      simp [List.nodup_append, h, hnotmem]
  | DeviceRemoved d =>
    have hsub : List.Sublist
        ((s.connected_devices.filter fun x => x.index != d.index).map BackendDevice.index)
        (s.connected_devices.map BackendDevice.index) :=
      (List.filter_sublist _).map _
    have hkept : ((s.connected_devices.filter fun x => x.index != d.index).map
        BackendDevice.index).Nodup := h.sublist hsub
    unfold registryNodup
    cases hl : (s.connected_devices.filter fun x => x.index == d.index).getLast? <;>
      simp [handleEvent, hl, hkept]
  | ServerDisconnect => simp [handleEvent, registryNodup]
  | PingTimeout => simp [handleEvent, registryNodup]

theorem runEvents_nodup (s : SessionState) (evs : List ButtplugClientEvent)
    (h : registryNodup s) : registryNodup (runEvents s evs).1 := by
  induction evs generalizing s with
  | nil => exact h
  | cons e rest ih =>
    simp only [runEvents]
    exact ih _ (handleEvent_nodup s e h)

theorem countP_index_le_one (l : List BackendDevice)
    (h : (l.map BackendDevice.index).Nodup) (i : Nat) :
    l.countP (fun d => d.index == i) ≤ 1 := by
  have h1 := List.nodup_iff_count_le_one.mp h i
  simpa [List.count, List.countP_map, Function.comp] using h1

/-- C1: for every sequence of backend DeviceAdded / DeviceRemoved events
(repeated indices included), the session registry keeps at most one entry per
backend device index; a DeviceFound update is relayed exactly for an index not
already present, and a DeviceLost update is relayed exactly when an entry with
that index existed (and was removed). -/
theorem C1_registry_dedup (s : SessionState) (h : registryNodup s) :
    (∀ (evs : List ButtplugClientEvent) (i : Nat),
      ((runEvents s evs).1.connected_devices.countP fun d => d.index == i) ≤ 1) ∧
    (∀ d : BackendDevice,
      UpdateFromAsyncTasks.ButtplugDeviceFound d ∈
          (handleEvent s (ButtplugClientEvent.DeviceAdded d)).2 ↔
        d.index ∉ s.connected_devices.map BackendDevice.index) ∧
    (∀ d : BackendDevice,
      (∃ lost, UpdateFromAsyncTasks.ButtplugDeviceLost lost ∈
          (handleEvent s (ButtplugClientEvent.DeviceRemoved d)).2) ↔
        d.index ∈ s.connected_devices.map BackendDevice.index) := by
  refine ⟨fun evs i => countP_index_le_one _ (runEvents_nodup s evs h) i, fun d => ?_, fun d => ?_⟩
  · by_cases hany : (s.connected_devices.any fun ex => ex.index == d.index) = true
    · rcases List.any_eq_true.mp hany with ⟨x, hx, hxi⟩
      have hmem : d.index ∈ s.connected_devices.map BackendDevice.index :=
        List.mem_map.mpr ⟨x, hx, by simpa using hxi.symm⟩
      simp [handleEvent, hany, hmem]
    · have hnotmem : d.index ∉ s.connected_devices.map BackendDevice.index := by
        intro hmem
        rcases List.mem_map.mp hmem with ⟨x, hx, hxi⟩
        exact hany (List.any_eq_true.mpr ⟨x, hx, by simp [hxi]⟩)
      simp [handleEvent, hany, hnotmem]
  · constructor
    · rintro ⟨lost, hmemupd⟩
      cases hl : (s.connected_devices.filter fun x => x.index == d.index).getLast? with
      | none => simp [handleEvent, hl] at hmemupd
      | some l0 =>
        have hne : (s.connected_devices.filter fun x => x.index == d.index) ≠ [] := by
          intro hnil
          rw [hnil] at hl
          exact Option.noConfusion hl
        rcases List.exists_mem_of_ne_nil _ hne with ⟨x, hx⟩
        have hx2 := List.mem_filter.mp hx
        exact List.mem_map.mpr ⟨x, hx2.1, by simpa using hx2.2⟩
    · intro hmem
      rcases List.mem_map.mp hmem with ⟨x, hx, hxi⟩
      have hne : (s.connected_devices.filter fun x => x.index == d.index) ≠ [] := by
        intro hnil
        have := List.filter_eq_nil_iff.mp hnil x hx
        simp [hxi] at this
      cases hl : (s.connected_devices.filter fun x => x.index == d.index).getLast? with
      | none => exact absurd (List.getLast?_eq_none_iff.mp hl) hne
      | some l0 => exact ⟨l0, by simp [handleEvent, hl]⟩

/-- Closed witness for C1: the empty registry, two additions of the same index
followed by a removal. -/
theorem C1_registry_dedup_witness :
    ((runEvents ⟨some true, []⟩
        [ButtplugClientEvent.DeviceAdded ⟨7, "a1", "d1", none⟩,
         ButtplugClientEvent.DeviceAdded ⟨7, "a2", "d1b", none⟩,
         ButtplugClientEvent.DeviceRemoved ⟨7, "a1", "d1", none⟩]).1.connected_devices.countP
      fun d => d.index == 7) ≤ 1 :=
  (C1_registry_dedup ⟨some true, []⟩ (by simp [registryNodup])).1
    [ButtplugClientEvent.DeviceAdded ⟨7, "a1", "d1", none⟩,
     ButtplugClientEvent.DeviceAdded ⟨7, "a2", "d1b", none⟩,
     ButtplugClientEvent.DeviceRemoved ⟨7, "a1", "d1", none⟩] 7

theorem wtProcessOk_interval (s : WtState) (ind : WarThunderIndicators) :
    (wtProcessOk s ind).1.polling_interval_milliseconds = s.polling_interval_milliseconds := by
  unfold wtProcessOk
  cases ind.health_percentage with
  | none => rfl
  | some ch =>
    cases s.last_known_health with
    | none => rfl
    | some lh => split <;> rfl

theorem wtFetchPhase_facts (s : WtState) (f : FetchOutcome) :
    (wtFetchPhase s f).sleep_ms = some s.polling_interval_milliseconds ∧
    ∀ s2, (wtFetchPhase s f).next = some s2 →
      s2.polling_interval_milliseconds = s.polling_interval_milliseconds := by
  cases f with
  | ok ind =>
    refine ⟨by simp [wtFetchPhase, wtProcessOk_interval], ?_⟩
    intro s2 hnext
    simp only [wtFetchPhase] at hnext
    cases hnext
    exact wtProcessOk_interval s ind
  | httpErr => exact ⟨rfl, fun s2 hnext => by cases hnext; rfl⟩
  | parseErr m => exact ⟨rfl, fun s2 hnext => by cases hnext; rfl⟩
  | connErr => exact ⟨rfl, fun s2 hnext => by cases hnext; rfl⟩

/-- C7: a poll cycle that receives UpdateSettings sleeps for the new interval
already in that same cycle, the carried-forward loop state stores the new
interval, and any later cycle with an empty command queue sleeps for the
interval stored in its state. -/
theorem C7_interval_update_within_one_cycle (s : WtState) (st : ApplicationSettings)
    (f : FetchOutcome) :
    (wtIteration s (TryRecvResult.cmd (CommandToAsyncTasks.UpdateApplicationSettings st)) f).sleep_ms =
      some st.polling_interval_milliseconds ∧
    (∀ s2, (wtIteration s (TryRecvResult.cmd (CommandToAsyncTasks.UpdateApplicationSettings st)) f).next =
        some s2 → s2.polling_interval_milliseconds = st.polling_interval_milliseconds) ∧
    (∀ (t : WtState) (f2 : FetchOutcome),
      (wtIteration t TryRecvResult.emptyQueue f2).sleep_ms =
        some t.polling_interval_milliseconds) := by
  refine ⟨?_, ?_, ?_⟩
  · simpa [wtIteration] using
      (wtFetchPhase_facts { s with polling_interval_milliseconds := st.polling_interval_milliseconds } f).1
  · intro s2 hnext
    simp only [wtIteration] at hnext
    exact (wtFetchPhase_facts { s with polling_interval_milliseconds := st.polling_interval_milliseconds } f).2 s2 hnext
  · intro t f2
    simpa [wtIteration] using (wtFetchPhase_facts t f2).1

/-- Closed witness for C7: a 250 ms state updated to 50 ms on a cycle whose
fetch fails to connect. -/
theorem C7_interval_update_within_one_cycle_witness :
    (wtIteration ⟨250, none⟩
        (TryRecvResult.cmd (CommandToAsyncTasks.UpdateApplicationSettings ⟨"a", 50, "b", []⟩))
        FetchOutcome.connErr).sleep_ms = some 50 :=
  (C7_interval_update_within_one_cycle ⟨250, none⟩ ⟨"a", 50, "b", []⟩ FetchOutcome.connErr).1

theorem selValid_handleUpdate (s : AppState) (u : UpdateFromAsyncTasks)
    (h : SelValid s) : SelValid (handleUpdate s u).1 := by
  cases u with
  | LogMessage msg => exact h
  | WarThunderIndicatorsUpdate ind =>
    simp only [handleUpdate]
    split
    · intro i hi
      exact h i hi
    · intro i hi
      exact h i hi
  | WarThunderConnectionStatus b =>
    cases b
    · intro i hi
      exact h i hi
    · intro i hi
      exact h i hi
  | ButtplugConnected => intro i hi; exact h i hi
  | ButtplugDisconnected => intro i hi; simp [handleUpdate] at hi
  | ButtplugDeviceFound d =>
    simp only [handleUpdate]
    split
    · exact h
    · intro i hi
      simp only at hi ⊢
      split at hi
      · cases hi
        simp
      · have := h i hi
        simp only [List.length_append, List.length_cons, List.length_nil]
        omega
  | ButtplugDeviceLost d =>
    simp only [handleUpdate]
    intro i hi
    simp only at hi ⊢
    split at hi
    · rename_i idx hidx
      split at hi
      · split at hi
        · exact absurd hi (by simp)
        · rename_i hlen hne
          cases hi
          have hne2 : (s.buttplug_devices.filter fun x => x.address != d.address) ≠ [] := by
            intro hnil
            rw [hnil] at hne
            simp at hne
          exact List.length_pos.mpr hne2
      · rename_i hlen
        cases hi
        omega
    · exact absurd hi (by simp)
  | ButtplugError m => intro i hi; exact h i hi
  | ApplicationSettingsLoaded st => intro i hi; exact h i hi

/-- C10: the coordinator invariant that a selected device index is in bounds of
the mirrored device list is preserved by handle_incoming_updates across every
sequence of incoming updates (disconnect clears both, discovery selects index
0 when nothing was selected, loss re-anchors an out-of-bounds selection). -/
theorem C10_selection_invariant (s : AppState) (us : List UpdateFromAsyncTasks)
    (h : SelValid s) : SelValid (handle_incoming_updates s us).1 := by
  induction us generalizing s with
  | nil => exact h
  | cons u rest ih =>
    simp only [handle_incoming_updates]
    exact ih _ (selValid_handleUpdate s u h)

/-- Closed witness for C10: discovery of two devices, loss of one, then a
backend disconnect, starting from an empty mirror. -/
theorem C10_selection_invariant_witness :
    SelValid (handle_incoming_updates
      { settings := defaultApplicationSettings }
      [UpdateFromAsyncTasks.ButtplugDeviceFound ⟨1, "a1", "d1", none⟩,
       UpdateFromAsyncTasks.ButtplugDeviceFound ⟨2, "a2", "d2", none⟩,
       UpdateFromAsyncTasks.ButtplugDeviceLost ⟨1, "a1", "d1", none⟩,
       UpdateFromAsyncTasks.ButtplugDisconnected]).1 :=
  C10_selection_invariant { settings := defaultApplicationSettings } _
    (fun i hi => by simp at hi)

/-- C3 counterexample: it is false that every send call site in the three
components is a non-blocking send that silently drops the message on a full
queue — the telemetry loop's indicators send (war_thunder_connector.rs line 81)
is an awaited send, and on a concrete full queue (capacity 1 holding one item)
it does not complete with the message dropped. -/
theorem C3_counterexample_worker_sends_block :
    ¬ (∀ site ∈ sendSites, NonBlockingDropWhenFull site.primitive) := by
  intro hall
  have hmem : (⟨ComponentId.WtLoop, 81, SendPrimitive.AwaitSendCall⟩ : SendSite) ∈ sendSites := by
    decide
  have hfull : (⟨1, [0]⟩ : BoundedQueue Nat).capacity ≤ (⟨1, [0]⟩ : BoundedQueue Nat).items.length := by
    decide
  have := hall _ hmem ⟨1, [0]⟩ 7 hfull
  simp [sendCompletion] at this

/-- C3 amended: the non-blocking silently-dropping back-pressure policy holds
for every coordinator send (all try_send); the worker loops instead use awaited
sends, which on a full queue suspend the caller until capacity frees rather
than dropping the message. -/
theorem C3_amended_send_policy :
    (∀ site ∈ sendSites, site.component = ComponentId.Coordinator →
      site.primitive = SendPrimitive.TrySendCall) ∧
    NonBlockingDropWhenFull SendPrimitive.TrySendCall ∧
    (∃ site ∈ sendSites, site.component = ComponentId.WtLoop ∧
      site.primitive = SendPrimitive.AwaitSendCall) ∧
    (∃ site ∈ sendSites, site.component = ComponentId.BpLoop ∧
      site.primitive = SendPrimitive.AwaitSendCall) ∧
    (∀ (q : BoundedQueue Nat) (a : Nat), q.capacity ≤ q.items.length →
      sendCompletion SendPrimitive.AwaitSendCall q a = none) := by
  refine ⟨by decide, ?_, by decide, by decide, ?_⟩
  · intro q a hfull
    simp [sendCompletion, hfull]
  · intro q a hfull
    simp [sendCompletion, hfull]

/-- Closed witness for the amended C3 at a concrete full queue (capacity 1
holding one item) and concrete call sites. -/
theorem C3_amended_send_policy_witness :
    (⟨ComponentId.Coordinator, 57, SendPrimitive.TrySendCall⟩ : SendSite).primitive =
      SendPrimitive.TrySendCall ∧
    sendCompletion SendPrimitive.TrySendCall ⟨1, [5]⟩ 7 = some ⟨1, [5]⟩ ∧
    sendCompletion SendPrimitive.AwaitSendCall ⟨1, [5]⟩ 7 = none :=
  ⟨C3_amended_send_policy.1 ⟨ComponentId.Coordinator, 57, SendPrimitive.TrySendCall⟩
      (by decide) rfl,
   C3_amended_send_policy.2.1 ⟨1, [5]⟩ 7 (by decide),
   C3_amended_send_policy.2.2.2.2 ⟨1, [5]⟩ 7 (by decide)⟩

end WTH
